import Mathlib

/-!
Shallow embedding of `src/websocket.ts` (class `WebSocketProxy`), a WebSocket
proxy that bridges a single child process speaking over stdin/stdout to at
most one connected WebSocket peer at a time.

The mutable fields of the class and of the surrounding runtime are collected
in `ProxyState`; each event handler registered in the source becomes a pure
function `ProxyState → ProxyState`, and `step` dispatches an `Event` to the
handler the source registers for it.
-/

/-- An opaque byte payload (`Buffer` in the source): a list of bytes. -/
abbrev Bytes := List Nat

/-- WebSocket ready state. The source only ever compares against
`WebSocket.OPEN`; `close()` moves an open socket to `Closing`, and the
`close` event marks it `Closed`. -/
inductive ReadyState where
  | Open
  | Closing
  | Closed
deriving DecidableEq, Repr

/-- One WebSocket connection object (`ws`): its identity, its ready state,
and whether the `pingInterval` timer started in the `connection` handler is
still set (`setInterval` not yet cleared). -/
structure Conn where
  id : Nat
  readyState : ReadyState
  pingActive : Bool
deriving DecidableEq, Repr

/-- Log events emitted through `this.log` / `console.error` in the source.
The payload-carrying entries stand for the diagnostic `JSON.parse`-or-raw
logging, which never affects control flow. -/
inductive LogEntry where
  | clientConnected
  | closingExisting
  | clientToAgent (data : Bytes)
  | stdinNotWritable
  | clientDisconnected
  | clientError
  | agentToClient (data : Bytes)
  | noActiveClient
  | receivedPong
  | agentExited (code : Option Int)
  | agentErrored
  | shuttingDown
deriving DecidableEq, Repr

/-- The mutable state of the `WebSocketProxy` instance together with the
observable effects on its environment: bytes written to the agent's stdin,
frames sent to peers, pings issued, and the host process exit. -/
structure ProxyState where
  /-- All WebSocket connection objects (`wss.clients` plus already closed
  sockets, which keep their timer flag). -/
  conns : List Conn
  /-- `this.currentClient`: the single active-session reference. -/
  currentClient : Option Nat
  /-- Whether `this.agent.stdin` exists (truthy). -/
  stdinExists : Bool
  /-- Whether `this.agent.stdin.writable` holds. -/
  stdinWritable : Bool
  /-- `this.agent.killed`. -/
  agentKilled : Bool
  /-- Whether `this.wss.close()` has been issued. -/
  serverClosed : Bool
  /-- Payloads written to the agent's stdin, in order. -/
  stdinBuf : List Bytes
  /-- Frames sent to peers via `ws.send`, in order, tagged by recipient. -/
  sent : List (Nat × Bytes)
  /-- Liveness probes issued via `ws.ping()`, in order. -/
  pings : List Nat
  /-- Log output, in order. -/
  logs : List LogEntry
  /-- `process.exit(code)` once invoked. -/
  exited : Option Int
deriving DecidableEq, Repr

/-- State right after the constructor ran: agent spawned with a piped,
writable stdin, no client yet. -/
def initState : ProxyState :=
  { conns := [], currentClient := none, stdinExists := true,
    stdinWritable := true, agentKilled := false, serverClosed := false,
    stdinBuf := [], sent := [], pings := [], logs := [], exited := none }

/-- Look up a connection object by identity. -/
def getConn (s : ProxyState) (i : Nat) : Option Conn :=
  s.conns.find? (fun c => c.id == i)

/-- Whether the connection `i` in the list is in the open state. -/
def listOpen (l : List Conn) (i : Nat) : Bool :=
  match l.find? (fun c => c.id == i) with
  | some c => c.readyState == ReadyState.Open
  | none => false

/-- `ws.readyState === WebSocket.OPEN` for the connection `i`. -/
def isOpen (s : ProxyState) (i : Nat) : Bool :=
  listOpen s.conns i

/-- Effect of `ws.close()` on one connection object: an open socket starts
closing; on a closing or closed socket the call is a no-op. -/
def wsCloseConn (i : Nat) (c : Conn) : Conn :=
  if c.id = i ∧ c.readyState = ReadyState.Open then
    { c with readyState := ReadyState.Closing }
  else c

/-- Effect of the socket `i` having fully closed (its `close` event fired). -/
def markClosedConn (i : Nat) (c : Conn) : Conn :=
  if c.id = i then { c with readyState := ReadyState.Closed } else c

/-- Effect of `clearInterval(pingInterval)` for the timer of socket `i`. -/
def clearPingConn (i : Nat) (c : Conn) : Conn :=
  if c.id = i then { c with pingActive := false } else c

/-- Effect of `shutdown`'s `wss.clients.forEach(client => client.close())`
on one connection object. -/
def closeAnyConn (c : Conn) : Conn :=
  if c.readyState = ReadyState.Open then
    { c with readyState := ReadyState.Closing }
  else c

/-- The `if (this.currentClient) { ... this.currentClient.close(); }` block
of the `connection` handler: evict the existing client, if any, by issuing
`close()` on it. The `currentClient` field is not yet reassigned here. -/
def evictExisting (s : ProxyState) : ProxyState :=
  match s.currentClient with
  | some old =>
      { s with logs := s.logs ++ [LogEntry.closingExisting],
               conns := s.conns.map (wsCloseConn old) }
  | none => s

/-- The tail of the `connection` handler: `this.currentClient = ws`, with the
fresh socket (open, ping timer set) now tracked among the connections. -/
def installClient (i : Nat) (s : ProxyState) : ProxyState :=
  { s with currentClient := some i,
           conns := s.conns ++ [{ id := i, readyState := ReadyState.Open,
                                  pingActive := true }] }

/-- The `wss.on("connection")` handler: log, evict any existing client,
install the new socket as the current client. -/
def onConnection (i : Nat) (s : ProxyState) : ProxyState :=
  installClient i
    (evictExisting { s with logs := s.logs ++ [LogEntry.clientConnected] })

/-- The `ws.on("message")` handler: diagnostic log, then forward the payload
verbatim to the agent's stdin iff `this.agent.stdin && this.agent.stdin.writable`;
otherwise log a warning and drop it. -/
def onMessage (data : Bytes) (s : ProxyState) : ProxyState :=
  if s.stdinExists && s.stdinWritable then
    { s with logs := s.logs ++ [LogEntry.clientToAgent data],
             stdinBuf := s.stdinBuf ++ [data] }
  else
    { s with logs := s.logs ++ [LogEntry.clientToAgent data,
                                LogEntry.stdinNotWritable] }

/-- The `ws.on("close")` handler, fired once the socket `i` has closed: log,
and clear `this.currentClient` only if it still points at this very socket. -/
def onClose (i : Nat) (s : ProxyState) : ProxyState :=
  if s.currentClient = some i then
    { s with logs := s.logs ++ [LogEntry.clientDisconnected],
             conns := s.conns.map (markClosedConn i),
             currentClient := none }
  else
    { s with logs := s.logs ++ [LogEntry.clientDisconnected],
             conns := s.conns.map (markClosedConn i) }

/-- The `ws.on("error")` handler: log only. -/
def onConnError (s : ProxyState) : ProxyState :=
  { s with logs := s.logs ++ [LogEntry.clientError] }

/-- The `ws.on("pong")` handler: log only. -/
def onPong (s : ProxyState) : ProxyState :=
  { s with logs := s.logs ++ [LogEntry.receivedPong] }

/-- One firing of the `pingInterval` callback for socket `i`. A cleared
interval no longer fires (outer guard); the callback body pings while the
socket is open and clears the interval the first time it is not. -/
def onPingTick (i : Nat) (s : ProxyState) : ProxyState :=
  match getConn s i with
  | some c =>
      if c.pingActive then
        if c.readyState = ReadyState.Open then
          { s with pings := s.pings ++ [i] }
        else
          { s with conns := s.conns.map (clearPingConn i) }
      else s
  | none => s

/-- The `shutdown(exitCode)` method: log, `close()` every tracked client,
close the server, kill the agent if not already killed, exit the process. -/
def shutdown (exitCode : Int) (s : ProxyState) : ProxyState :=
  if !s.agentKilled then
    { s with logs := s.logs ++ [LogEntry.shuttingDown],
             conns := s.conns.map closeAnyConn,
             serverClosed := true, agentKilled := true,
             exited := some exitCode }
  else
    { s with logs := s.logs ++ [LogEntry.shuttingDown],
             conns := s.conns.map closeAnyConn,
             serverClosed := true,
             exited := some exitCode }

/-- JavaScript `code || 0` on a nullable number: `null` and `0` are falsy. -/
def jsOrZero (code : Option Int) : Int :=
  match code with
  | none => 0
  | some n => if n = 0 then 0 else n

/-- The `agent.on("exit")` handler: log, then `shutdown(code || 0)`. -/
def onAgentExit (code : Option Int) (s : ProxyState) : ProxyState :=
  shutdown (jsOrZero code) { s with logs := s.logs ++ [LogEntry.agentExited code] }

/-- The `agent.on("error")` handler: log, then `shutdown(1)`. -/
def onAgentError (s : ProxyState) : ProxyState :=
  shutdown 1 { s with logs := s.logs ++ [LogEntry.agentErrored] }

/-- The `data` handler on the agent's stdout: diagnostic log, then send the
chunk to the current client iff one exists and its socket is open; otherwise
log and drop. -/
def onStdoutData (data : Bytes) (s : ProxyState) : ProxyState :=
  match s.currentClient with
  | some c =>
      if isOpen s c then
        { s with logs := s.logs ++ [LogEntry.agentToClient data],
                 sent := s.sent ++ [(c, data)] }
      else
        { s with logs := s.logs ++ [LogEntry.agentToClient data,
                                    LogEntry.noActiveClient] }
  | none =>
      { s with logs := s.logs ++ [LogEntry.agentToClient data,
                                  LogEntry.noActiveClient] }

/-- The events the source registers handlers for. -/
inductive Event where
  | connection (i : Nat)
  | message (i : Nat) (data : Bytes)
  | close (i : Nat)
  | connError (i : Nat)
  | pong (i : Nat)
  | pingTick (i : Nat)
  | stdoutData (data : Bytes)
  | agentExit (code : Option Int)
  | agentError
  | sigint
  | sigterm
deriving DecidableEq, Repr

/-- Dispatch an event to the handler the source registers for it. The two
signal handlers of the CLI entry point call `proxy.shutdown(0)`. -/
def step (e : Event) (s : ProxyState) : ProxyState :=
  match e with
  | Event.connection i => onConnection i s
  | Event.message _ data => onMessage data s
  | Event.close i => onClose i s
  | Event.connError _ => onConnError s
  | Event.pong _ => onPong s
  | Event.pingTick i => onPingTick i s
  | Event.stdoutData data => onStdoutData data s
  | Event.agentExit code => onAgentExit code s
  | Event.agentError => onAgentError s
  | Event.sigint => shutdown 0 s
  | Event.sigterm => shutdown 0 s

/-- Run a sequence of events from a state. -/
def run (es : List Event) (s : ProxyState) : ProxyState :=
  es.foldl (fun s e => step e s) s

/-- Number of active sessions: the `currentClient` reference holds zero or
one socket. -/
def numActive (s : ProxyState) : Nat :=
  match s.currentClient with
  | some _ => 1
  | none => 0

/-- Payloads sent to the peer `i`, in order. -/
def sentTo (i : Nat) (s : ProxyState) : List Bytes :=
  (s.sent.filter (fun p => p.1 == i)).map Prod.snd

/-- Number of liveness probes issued to socket `i`. -/
def pingsTo (i : Nat) (s : ProxyState) : Nat :=
  s.pings.count i

/-- `wsCloseConn` does not change a connection's identity. -/
lemma wsCloseConn_id (i : Nat) (c : Conn) : (wsCloseConn i c).id = c.id := by
  unfold wsCloseConn; split <;> rfl

/-- `markClosedConn` does not change a connection's identity. -/
lemma markClosedConn_id (i : Nat) (c : Conn) : (markClosedConn i c).id = c.id := by
  unfold markClosedConn; split <;> rfl

/-- `clearPingConn` does not change a connection's identity. -/
lemma clearPingConn_id (i : Nat) (c : Conn) : (clearPingConn i c).id = c.id := by
  unfold clearPingConn; split <;> rfl

/-- `closeAnyConn` does not change a connection's identity. -/
lemma closeAnyConn_id (c : Conn) : (closeAnyConn c).id = c.id := by
  unfold closeAnyConn; split <;> rfl

/-- Looking up a connection in a list transformed by an identity-preserving
map commutes with the map. -/
lemma findConn_map (f : Conn → Conn) (hid : ∀ c, (f c).id = c.id)
    (l : List Conn) (i : Nat) :
    (l.map f).find? (fun c => c.id == i) = (l.find? (fun c => c.id == i)).map f := by
  rw [List.find?_map]
  have hcomp : ((fun c : Conn => c.id == i) ∘ f) = fun c : Conn => c.id == i := by
    funext c
    simp [Function.comp, hid]
  rw [hcomp]

/-- `onMessage` does not change the stdin flags. -/
lemma onMessage_stdin_flags (data : Bytes) (s : ProxyState) :
    (onMessage data s).stdinExists = s.stdinExists ∧
      (onMessage data s).stdinWritable = s.stdinWritable := by
  unfold onMessage
  split <;> simp

/-- When the stdin sink is present and writable, a message event appends its
payload to the stdin stream. -/
lemma onMessage_writes (data : Bytes) (s : ProxyState)
    (h : (s.stdinExists && s.stdinWritable) = true) :
    (onMessage data s).stdinBuf = s.stdinBuf ++ [data] := by
  unfold onMessage
  simp [h]

/-- Running a sequence of message events while stdin stays writable appends
exactly the payloads, in order, to the stdin stream. -/
lemma run_messages (i : Nat) (msgs : List Bytes) :
    ∀ s : ProxyState, (s.stdinExists && s.stdinWritable) = true →
      (run (msgs.map (Event.message i)) s).stdinBuf = s.stdinBuf ++ msgs := by
  induction msgs with
  | nil => intro s _; simp [run]
  | cons m ms ih =>
      intro s h
      have hstep : run ((m :: ms).map (Event.message i)) s
          = run (ms.map (Event.message i)) (step (Event.message i m) s) := rfl
      rw [hstep]
      have hflags := onMessage_stdin_flags m s
      have hw : ((step (Event.message i m) s).stdinExists &&
          (step (Event.message i m) s).stdinWritable) = true := by
        simpa [step, hflags.1, hflags.2] using h
      rw [ih (step (Event.message i m) s) hw]
      have hbuf : (step (Event.message i m) s).stdinBuf = s.stdinBuf ++ [m] := by
        simpa [step] using onMessage_writes m s h
      rw [hbuf, List.append_assoc]
      rfl

/-- `shutdown` always exits the host process with the code it was given. -/
lemma shutdown_exited (m : Int) (t : ProxyState) : (shutdown m t).exited = some m := by
  unfold shutdown
  split <;> rfl

/-- Claim C1: every operation of the system preserves the invariant that the
current-client reference holds either no session or exactly one session: at
most one session is active after any step. -/
theorem c1_at_most_one_active (e : Event) (s : ProxyState) :
    numActive (step e s) ≤ 1 := by
  have h : ∀ t : ProxyState, numActive t ≤ 1 := by
    intro t
    unfold numActive
    cases t.currentClient <;> simp
  exact h (step e s)

/-- Claim C2: a disconnect event clears the active session iff the closing
socket is the current client; a stale disconnect from an already-evicted
session leaves the newer session in place. -/
theorem c2_disconnect_guard (i : Nat) (s : ProxyState) :
    (step (Event.close i) s).currentClient =
      if s.currentClient = some i then none else s.currentClient := by
  simp only [step, onClose]
  split <;> simp_all

/-- Claim C6: on normal child exit with code `n` the host exits with code
`n`, and on a child process error the host exits with code 1. -/
theorem c6_exit_code_propagation (n : Int) (s : ProxyState) :
    (step (Event.agentExit (some n)) s).exited = some n ∧
      (step Event.agentError s).exited = some 1 := by
  constructor
  · have h1 : jsOrZero (some n) = n := by
      unfold jsOrZero
      split <;> simp_all
    simp only [step, onAgentExit, h1, shutdown_exited]
  · simp only [step, onAgentError, shutdown_exited]

/-- Claim C10: when the child's exit event reports no exit code (`null`),
shutdown runs with exit code 0 and the host exits with code 0. -/
theorem c10_null_exit_code (s : ProxyState) :
    (step (Event.agentExit none) s).exited = some 0 := by
  simp only [step, onAgentExit, jsOrZero, shutdown_exited]

/-- Claim C4: an inbound peer message is written verbatim to the child's
stdin iff stdin exists and is writable; when it is not, a warning is logged
and the payload dropped; and a sequence of messages during which stdin stays
writable reaches the child's input verbatim and in order. -/
theorem c4_inbound_forwarding (i : Nat) (data : Bytes) (msgs : List Bytes)
    (s : ProxyState) :
    ((step (Event.message i data) s).stdinBuf = s.stdinBuf ++ [data] ↔
        (s.stdinExists && s.stdinWritable) = true)
    ∧ ((s.stdinExists && s.stdinWritable) = false →
        (step (Event.message i data) s).stdinBuf = s.stdinBuf ∧
          LogEntry.stdinNotWritable ∈ (step (Event.message i data) s).logs)
    ∧ ((s.stdinExists && s.stdinWritable) = true →
        (run (msgs.map (Event.message i)) s).stdinBuf = s.stdinBuf ++ msgs) := by
  refine ⟨?_, ?_, fun h => run_messages i msgs s h⟩
  · constructor
    · intro hbuf
      by_contra hcond
      have hcond' : (s.stdinExists && s.stdinWritable) = false := by
        simpa using hcond
      have : (step (Event.message i data) s).stdinBuf = s.stdinBuf := by
        simp [step, onMessage, hcond']
      rw [this] at hbuf
      simpa using congrArg List.length hbuf
    · intro h
      simpa [step] using onMessage_writes data s h
  · intro h
    constructor
    · simp [step, onMessage, h]
    · simp [step, onMessage, h]

/-- Witness for C4 at a concrete state and payload list. -/
theorem c4_inbound_forwarding_witness :
    (run ([[1], [2, 3]].map (Event.message 5)) initState).stdinBuf
      = initState.stdinBuf ++ [[1], [2, 3]] :=
  (c4_inbound_forwarding 5 [] [[1], [2, 3]] initState).2.2 (by decide)

/-- Claim C5: a chunk of child output is sent verbatim to the active
session's connection iff one exists and is open; otherwise it is logged and
dropped; and the chunk is never sent to any other peer. -/
theorem c5_outbound_forwarding (data : Bytes) (s : ProxyState) :
    (∀ c, s.currentClient = some c → isOpen s c = true →
        (step (Event.stdoutData data) s).sent = s.sent ++ [(c, data)] ∧
          ∀ j, j ≠ c →
            sentTo j (step (Event.stdoutData data) s) = sentTo j s)
    ∧ (∀ c, s.currentClient = some c → isOpen s c = false →
        (step (Event.stdoutData data) s).sent = s.sent ∧
          LogEntry.noActiveClient ∈ (step (Event.stdoutData data) s).logs)
    ∧ (s.currentClient = none →
        (step (Event.stdoutData data) s).sent = s.sent ∧
          LogEntry.noActiveClient ∈ (step (Event.stdoutData data) s).logs) := by
  refine ⟨?_, ?_, ?_⟩
  · intro c hc hopen
    have hsent : (step (Event.stdoutData data) s).sent = s.sent ++ [(c, data)] := by
      simp [step, onStdoutData, hc, hopen]
    refine ⟨hsent, fun j hj => ?_⟩
    have hcj : (c == j) = false := by
      simp only [beq_eq_false_iff_ne]
      exact fun h => hj h.symm
    unfold sentTo
    rw [hsent, List.filter_append]
    simp [List.filter, hcj]
  · intro c hc hnot
    constructor
    · simp [step, onStdoutData, hc, hnot]
    · simp [step, onStdoutData, hc, hnot]
  · intro hc
    constructor
    · simp [step, onStdoutData, hc]
    · simp [step, onStdoutData, hc]

/-- Witness for C5: with a single open client installed, a child-output
chunk is delivered to it and the other peer receives nothing. -/
theorem c5_outbound_forwarding_witness :
    (step (Event.stdoutData [9]) (step (Event.connection 1) initState)).sent
        = (step (Event.connection 1) initState).sent ++ [(1, [9])] ∧
      sentTo 2 (step (Event.stdoutData [9]) (step (Event.connection 1) initState))
        = sentTo 2 (step (Event.connection 1) initState) :=
  ⟨((c5_outbound_forwarding [9] (step (Event.connection 1) initState)).1
      1 (by decide) (by decide)).1,
    ((c5_outbound_forwarding [9] (step (Event.connection 1) initState)).1
      1 (by decide) (by decide)).2 2 (by decide)⟩

/-- `closeAnyConn` never leaves a connection open. -/
lemma closeAnyConn_not_open (c : Conn) :
    (closeAnyConn c).readyState ≠ ReadyState.Open := by
  unfold closeAnyConn
  split <;> simp_all

/-- After `shutdown`, no tracked connection is open, the server is closed,
the agent is killed and the process has exited with the given code. -/
lemma shutdown_effects (n : Int) (s : ProxyState) :
    (∀ c ∈ (shutdown n s).conns, c.readyState ≠ ReadyState.Open) ∧
      (shutdown n s).serverClosed = true ∧
      (shutdown n s).agentKilled = true ∧
      (shutdown n s).exited = some n := by
  unfold shutdown
  split
  · refine ⟨?_, rfl, rfl, rfl⟩
    intro c hc
    simp only [List.mem_map] at hc
    obtain ⟨a, _, rfl⟩ := hc
    exact closeAnyConn_not_open a
  · rename_i hk
    refine ⟨?_, rfl, ?_, rfl⟩
    · intro c hc
      simp only [List.mem_map] at hc
      obtain ⟨a, _, rfl⟩ := hc
      exact closeAnyConn_not_open a
    · simpa using hk

/-- Claim C7: on either termination signal, shutdown runs with exit code 0:
every tracked peer connection is closed, the listening endpoint is closed,
the child process is terminated, and the host exits with code 0. -/
theorem c7_signal_shutdown (s : ProxyState) :
    ((∀ c ∈ (step Event.sigint s).conns, c.readyState ≠ ReadyState.Open) ∧
        (step Event.sigint s).serverClosed = true ∧
        (step Event.sigint s).agentKilled = true ∧
        (step Event.sigint s).exited = some 0)
    ∧ ((∀ c ∈ (step Event.sigterm s).conns, c.readyState ≠ ReadyState.Open) ∧
        (step Event.sigterm s).serverClosed = true ∧
        (step Event.sigterm s).agentKilled = true ∧
        (step Event.sigterm s).exited = some 0) :=
  ⟨shutdown_effects 0 s, shutdown_effects 0 s⟩

/-- `markClosedConn` does not change the ping-timer flag. -/
lemma markClosedConn_ping (i : Nat) (c : Conn) :
    (markClosedConn i c).pingActive = c.pingActive := by
  unfold markClosedConn; split <;> rfl

/-- `clearPingConn` does not change the ready state. -/
lemma clearPingConn_ready (i : Nat) (c : Conn) :
    (clearPingConn i c).readyState = c.readyState := by
  unfold clearPingConn; split <;> rfl

/-- A not-open connection stays not-open under an identity-preserving,
not-open-preserving transformation of the connection list. -/
lemma listOpen_map_false (f : Conn → Conn) (hid : ∀ c, (f c).id = c.id)
    (hro : ∀ c, c.readyState ≠ ReadyState.Open →
      (f c).readyState ≠ ReadyState.Open)
    (l : List Conn) (i : Nat) (h : listOpen l i = false) :
    listOpen (l.map f) i = false := by
  unfold listOpen at *
  rw [findConn_map f hid]
  cases hg : l.find? (fun c => c.id == i) with
  | none => simp
  | some c =>
      rw [hg] at h
      simp at h ⊢
      exact hro c h

/-- A connection not open in either part of a concatenation is not open in
the concatenation. -/
lemma listOpen_append_false (l₁ l₂ : List Conn) (i : Nat)
    (h₁ : listOpen l₁ i = false) (h₂ : listOpen l₂ i = false) :
    listOpen (l₁ ++ l₂) i = false := by
  unfold listOpen at *
  rw [List.find?_append]
  cases hg : l₁.find? (fun c => c.id == i) with
  | none =>
      rw [hg] at h₁
      simpa using h₂
  | some c =>
      rw [hg] at h₁
      simpa using h₁

/-- A fresh singleton with a different identity is not open at `i`. -/
lemma listOpen_singleton_ne (i : Nat) (c : Conn) (hji : c.id ≠ i) :
    listOpen [c] i = false := by
  have hb : (c.id == i) = false := by simpa using hji
  simp [listOpen, hb]

/-- `onStdoutData` leaves the connection list unchanged. -/
lemma onStdoutData_conns (data : Bytes) (s : ProxyState) :
    (onStdoutData data s).conns = s.conns := by
  unfold onStdoutData
  split
  · split <;> rfl
  · rfl

/-- `onStdoutData` issues no liveness probe. -/
lemma onStdoutData_pings (data : Bytes) (s : ProxyState) :
    (onStdoutData data s).pings = s.pings := by
  unfold onStdoutData
  split
  · split <;> rfl
  · rfl

/-- `onConnection` issues no liveness probe. -/
lemma onConnection_pings (j : Nat) (s : ProxyState) :
    (onConnection j s).pings = s.pings := by
  cases hcc : s.currentClient <;>
    simp [onConnection, installClient, evictExisting, hcc]

/-- No event other than a reconnection under the same identity can reopen a
connection that is not open. -/
lemma step_preserves_notOpen (e : Event) (s : ProxyState) (i : Nat)
    (he : e ≠ Event.connection i) (h : isOpen s i = false) :
    isOpen (step e s) i = false := by
  unfold isOpen at *
  cases e with
  | connection j =>
      have hji : j ≠ i := fun hj => he (by rw [hj])
      cases hcc : s.currentClient with
      | none =>
          simp only [step, onConnection, installClient, evictExisting, hcc]
          exact listOpen_append_false _ _ i h
            (listOpen_singleton_ne i _ hji)
      | some old =>
          simp only [step, onConnection, installClient, evictExisting, hcc]
          refine listOpen_append_false _ _ i ?_
            (listOpen_singleton_ne i _ hji)
          exact listOpen_map_false _ (wsCloseConn_id old)
            (fun c hc => by
              unfold wsCloseConn
              split <;> simp_all) s.conns i h
  | message j data =>
      simp only [step, onMessage]
      split <;> exact h
  | close j =>
      simp only [step, onClose]
      split <;>
        exact listOpen_map_false _ (markClosedConn_id j)
          (fun c hc => by
            unfold markClosedConn
            split <;> simp_all) s.conns i h
  | connError j => exact h
  | pong j => exact h
  | pingTick j =>
      simp only [step, onPingTick]
      cases hg : getConn s j with
      | none => exact h
      | some c =>
          by_cases hact : c.pingActive = true
          · simp only [hact, if_true]
            split
            · exact h
            · exact listOpen_map_false _ (clearPingConn_id j)
                (fun c hc => by rw [clearPingConn_ready]; exact hc)
                s.conns i h
          · simp only [Bool.not_eq_true] at hact
            simp only [hact, Bool.false_eq_true, if_false]
            exact h
  | stdoutData data =>
      have hconn : (step (Event.stdoutData data) s).conns = s.conns := by
        simp only [step]
        exact onStdoutData_conns data s
      rw [hconn]
      exact h
  | agentExit code =>
      simp only [step, onAgentExit, shutdown]
      split <;>
        exact listOpen_map_false _ closeAnyConn_id
          (fun c _ => closeAnyConn_not_open c) s.conns i h
  | agentError =>
      simp only [step, onAgentError, shutdown]
      split <;>
        exact listOpen_map_false _ closeAnyConn_id
          (fun c _ => closeAnyConn_not_open c) s.conns i h
  | sigint =>
      simp only [step, shutdown]
      split <;>
        exact listOpen_map_false _ closeAnyConn_id
          (fun c _ => closeAnyConn_not_open c) s.conns i h
  | sigterm =>
      simp only [step, shutdown]
      split <;>
        exact listOpen_map_false _ closeAnyConn_id
          (fun c _ => closeAnyConn_not_open c) s.conns i h

/-- No event pings a connection that is not open. -/
lemma step_preserves_pingsTo (e : Event) (s : ProxyState) (i : Nat)
    (h : isOpen s i = false) :
    pingsTo i (step e s) = pingsTo i s := by
  cases e with
  | connection j =>
      unfold pingsTo
      rw [show (step (Event.connection j) s).pings = s.pings from
        onConnection_pings j s]
  | message j data =>
      simp only [step, onMessage]
      split <;> rfl
  | close j =>
      simp only [step, onClose]
      split <;> rfl
  | connError j => rfl
  | pong j => rfl
  | pingTick j =>
      simp only [step, onPingTick]
      cases hg : getConn s j with
      | none => rfl
      | some c =>
          cases hact : c.pingActive with
          | false => simp [hact]
          | true =>
              simp only [hact, if_true]
              by_cases hro : c.readyState = ReadyState.Open
              · rw [if_pos hro]
                by_cases hji : j = i
                · exfalso
                  subst hji
                  have hg' : s.conns.find? (fun x => x.id == j) = some c := hg
                  unfold isOpen listOpen at h
                  rw [hg'] at h
                  simp [hro] at h
                · unfold pingsTo
                  simp [List.count_append, List.count_cons, List.count_nil, hji]
              · rw [if_neg hro]
                rfl
  | stdoutData data =>
      unfold pingsTo
      rw [show (step (Event.stdoutData data) s).pings = s.pings from
        onStdoutData_pings data s]
  | agentExit code =>
      simp only [step, onAgentExit, shutdown]
      split <;> rfl
  | agentError =>
      simp only [step, onAgentError, shutdown]
      split <;> rfl
  | sigint =>
      simp only [step, shutdown]
      split <;> rfl
  | sigterm =>
      simp only [step, shutdown]
      split <;> rfl

/-- Witness for C7 at a state with one open connected peer. -/
theorem c7_signal_shutdown_witness :
    ((Conn.mk 1 ReadyState.Closing true).readyState ≠ ReadyState.Open) ∧
      (step Event.sigint
        { initState with conns := [Conn.mk 1 ReadyState.Open true],
                         currentClient := some 1 }).exited = some 0 :=
  ⟨(c7_signal_shutdown
      { initState with conns := [Conn.mk 1 ReadyState.Open true],
                       currentClient := some 1 }).1.1
      (Conn.mk 1 ReadyState.Closing true) (by decide),
    (c7_signal_shutdown
      { initState with conns := [Conn.mk 1 ReadyState.Open true],
                       currentClient := some 1 }).1.2.2.2⟩

/-- Along any event trace that never reuses the closed connection's
identity, the number of probes sent to it never changes once it is not
open. -/
lemma run_pingsTo_frozen (i : Nat) (es : List Event) :
    ∀ s : ProxyState, isOpen s i = false →
      (∀ e ∈ es, e ≠ Event.connection i) →
      pingsTo i (run es s) = pingsTo i s := by
  induction es with
  | nil => intro s _ _; rfl
  | cons e es ih =>
      intro s h hf
      have he : e ≠ Event.connection i := hf e (List.mem_cons_self e es)
      have hrest : ∀ e' ∈ es, e' ≠ Event.connection i :=
        fun e' he' => hf e' (List.mem_cons_of_mem e he')
      have hstep : run (e :: es) s = run es (step e s) := rfl
      rw [hstep, ih (step e s) (step_preserves_notOpen e s i he h) hrest]
      exact step_preserves_pingsTo e s i h

/-- Claim C9: for a session whose connection is no longer open, no further
liveness probe is ever sent to it along any later event trace (that does not
reinstall the same connection identity), and the first firing of its probe
timer after the close sends nothing and cancels the timer. -/
theorem c9_no_probe_after_close (s : ProxyState) (i : Nat) (es : List Event)
    (h : isOpen s i = false) (hf : ∀ e ∈ es, e ≠ Event.connection i) :
    pingsTo i (run es s) = pingsTo i s ∧
      (getConn (step (Event.pingTick i) s) i).all (fun c => !c.pingActive)
        = true := by
  refine ⟨run_pingsTo_frozen i es s h hf, ?_⟩
  simp only [step, onPingTick]
  cases hg : getConn s i with
  | none =>
      rw [hg]
      rfl
  | some c =>
      have hg' : s.conns.find? (fun x => x.id == i) = some c := hg
      cases hact : c.pingActive with
      | false => simp [hact, hg]
      | true =>
          have hro : c.readyState ≠ ReadyState.Open := by
            unfold isOpen listOpen at h
            rw [hg'] at h
            simpa using h
          have hcid : c.id = i := by simpa using List.find?_some hg'
          have hclear : clearPingConn i c = { c with pingActive := false } := by
            unfold clearPingConn
            rw [if_pos hcid]
          simp only [hact, if_true]
          rw [if_neg hro]
          simp [getConn, findConn_map (clearPingConn i) (clearPingConn_id i),
            hg', hclear]

/-- Witness for C9: a peer connects and disconnects; along a trace with two
timer firings and a child-output chunk, no probe reaches it, and the first
timer firing after the close cancels the timer. -/
theorem c9_no_probe_after_close_witness :
    pingsTo 1 (run [Event.pingTick 1, Event.stdoutData [2], Event.pingTick 1]
        (step (Event.close 1) (step (Event.connection 1) initState)))
      = pingsTo 1 (step (Event.close 1) (step (Event.connection 1) initState)) ∧
      (getConn (step (Event.pingTick 1)
          (step (Event.close 1) (step (Event.connection 1) initState))) 1).all
        (fun c => !c.pingActive) = true :=
  c9_no_probe_after_close
    (step (Event.close 1) (step (Event.connection 1) initState)) 1
    [Event.pingTick 1, Event.stdoutData [2], Event.pingTick 1]
    (by decide) (by decide)

/-- Counterexample to claim C8 as stated: a peer connects and its connection
then closes; right after the disconnect event has run, the session's probe
timer is still set (the `close` handler never clears it), even though the
connection is recorded as closed. Cancellation is therefore not performed on
the disconnect event itself. -/
theorem c8_counterexample :
    (getConn (step (Event.close 1) (step (Event.connection 1) initState)) 1).map
        Conn.pingActive = some true ∧
      (getConn (step (Event.close 1) (step (Event.connection 1) initState)) 1).map
        Conn.readyState = some ReadyState.Closed := by
  decide

/-- Claim C8 (amended): the disconnect event leaves the probe timer exactly
as it was — cancellation is not performed there; the timer is cancelled only
lazily, by the open-check inside the timer callback: the first firing that
finds the connection not open clears the timer and sends no probe. -/
theorem c8_lazy_cancellation (s : ProxyState) (i : Nat) (c : Conn)
    (hc : getConn s i = some c) :
    (getConn (step (Event.close i) s) i).map Conn.pingActive
        = some c.pingActive
    ∧ (c.pingActive = true → c.readyState ≠ ReadyState.Open →
        (getConn (step (Event.pingTick i) s) i).map Conn.pingActive
            = some false
          ∧ (step (Event.pingTick i) s).pings = s.pings) := by
  have hc' : s.conns.find? (fun x => x.id == i) = some c := hc
  constructor
  · simp only [step, onClose]
    split <;>
      simp [getConn, findConn_map (markClosedConn i) (markClosedConn_id i),
        hc', markClosedConn_ping]
  · intro hact hro
    have hcid : c.id = i := by simpa using List.find?_some hc'
    have hclear : clearPingConn i c = { c with pingActive := false } := by
      unfold clearPingConn
      rw [if_pos hcid]
    have htick : step (Event.pingTick i) s
        = { s with conns := s.conns.map (clearPingConn i) } := by
      simp only [step, onPingTick]
      rw [hc]
      simp [hact, hro]
    constructor
    · rw [htick]
      simp [getConn, findConn_map (clearPingConn i) (clearPingConn_id i),
        hc', hclear]
    · rw [htick]

/-- Witness for C8 (amended) on the concrete connect-then-disconnect
scenario. -/
theorem c8_lazy_cancellation_witness :
    (getConn (step (Event.pingTick 1)
          (step (Event.close 1) (step (Event.connection 1) initState))) 1).map
        Conn.pingActive = some false
      ∧ (step (Event.pingTick 1)
            (step (Event.close 1) (step (Event.connection 1) initState))).pings
          = (step (Event.close 1) (step (Event.connection 1) initState)).pings :=
  (c8_lazy_cancellation
      (step (Event.close 1) (step (Event.connection 1) initState)) 1
      (Conn.mk 1 ReadyState.Closed true) (by decide)).2 rfl (by decide)

/-- Appending one sent frame extends exactly the recipient's stream and
leaves every other peer's stream unchanged. -/
lemma sentTo_append (j c : Nat) (data : Bytes) (s t : ProxyState)
    (h : t.sent = s.sent ++ [(c, data)]) :
    sentTo j t = if c = j then sentTo j s ++ [data] else sentTo j s := by
  unfold sentTo
  rw [h, List.filter_append, List.map_append]
  by_cases hcj : c = j
  · rw [if_pos hcj]
    subst hcj
    simp [List.filter]
  · rw [if_neg hcj]
    have hb : (c == j) = false := by simpa using hcj
    simp [List.filter, hb]

/-- Claim C3: when a new peer connects while another session is active, the
prior session's connection is closed by the eviction block before the new
client is installed (the handler is the eviction block followed by the
install), the new connection becomes the sole active session, and a
subsequent chunk of child output is delivered to the new peer only. -/
theorem c3_evict_install_sole_recipient
    (s : ProxyState) (old nw : Nat) (oc : Conn)
    (hcur : s.currentClient = some old)
    (hold : getConn s old = some oc)
    (hopen : oc.readyState = ReadyState.Open)
    (hfresh : getConn s nw = none) :
    ((evictExisting { s with logs := s.logs ++ [LogEntry.clientConnected] }).currentClient
        = some old
      ∧ (getConn (evictExisting
            { s with logs := s.logs ++ [LogEntry.clientConnected] }) old).map
          Conn.readyState = some ReadyState.Closing
      ∧ step (Event.connection nw) s
          = installClient nw (evictExisting
              { s with logs := s.logs ++ [LogEntry.clientConnected] }))
    ∧ (step (Event.connection nw) s).currentClient = some nw
    ∧ (getConn (step (Event.connection nw) s) old).map Conn.readyState
        = some ReadyState.Closing
    ∧ ∀ data : Bytes,
        sentTo old (step (Event.stdoutData data) (step (Event.connection nw) s))
            = sentTo old (step (Event.connection nw) s)
          ∧ sentTo nw (step (Event.stdoutData data) (step (Event.connection nw) s))
            = sentTo nw (step (Event.connection nw) s) ++ [data] := by
  have hold' : s.conns.find? (fun c => c.id == old) = some oc := hold
  have hfresh' : s.conns.find? (fun c => c.id == nw) = none := hfresh
  have hocid : oc.id = old := by simpa using List.find?_some hold'
  have hne : old ≠ nw := by
    intro heq
    rw [heq] at hold'
    rw [hfresh'] at hold'
    exact Option.noConfusion hold'
  have hwc : wsCloseConn old oc = { oc with readyState := ReadyState.Closing } := by
    unfold wsCloseConn
    rw [if_pos ⟨hocid, hopen⟩]
  have hmapold : (s.conns.map (wsCloseConn old)).find? (fun c => c.id == old)
      = some { oc with readyState := ReadyState.Closing } := by
    rw [findConn_map _ (wsCloseConn_id old), hold']
    simp [hwc]
  have hmapnw : (s.conns.map (wsCloseConn old)).find? (fun c => c.id == nw)
      = none := by
    rw [findConn_map _ (wsCloseConn_id old), hfresh']
    rfl
  refine ⟨⟨?_, ?_, rfl⟩, ?_, ?_, ?_⟩
  · simp [evictExisting, hcur]
  · simp [evictExisting, hcur, getConn, hmapold]
  · simp [step, onConnection, installClient]
  · simp [step, onConnection, installClient, evictExisting, hcur, getConn,
      List.find?_append, hmapold]
  · intro data
    have hcur2 : (onConnection nw s).currentClient = some nw := by
      simp [onConnection, installClient]
    have hopen2 : isOpen (onConnection nw s) nw = true := by
      simp [onConnection, installClient, evictExisting, hcur, isOpen,
        listOpen, List.find?_append, hmapnw]
    have hsent : (step (Event.stdoutData data) (step (Event.connection nw) s)).sent
        = (step (Event.connection nw) s).sent ++ [(nw, data)] := by
      simp only [step]
      simp [onStdoutData, hcur2, hopen2]
    constructor
    · rw [sentTo_append old nw data (step (Event.connection nw) s)
        (step (Event.stdoutData data) (step (Event.connection nw) s)) hsent,
        if_neg (Ne.symm hne)]
    · rw [sentTo_append nw nw data (step (Event.connection nw) s)
        (step (Event.stdoutData data) (step (Event.connection nw) s)) hsent,
        if_pos rfl]

/-- Witness for C3: peer 1 is connected and open, peer 2 connects; peer 1 is
closed, peer 2 becomes current, and a subsequent output chunk reaches only
peer 2. -/
theorem c3_evict_install_sole_recipient_witness :
    (step (Event.connection 2) (step (Event.connection 1) initState)).currentClient
        = some 2
      ∧ sentTo 1 (step (Event.stdoutData [7])
            (step (Event.connection 2) (step (Event.connection 1) initState)))
          = sentTo 1 (step (Event.connection 2) (step (Event.connection 1) initState)) :=
  ⟨(c3_evict_install_sole_recipient (step (Event.connection 1) initState) 1 2
      (Conn.mk 1 ReadyState.Open true) (by decide) (by decide) (by decide)
      (by decide)).2.1,
    ((c3_evict_install_sole_recipient (step (Event.connection 1) initState) 1 2
      (Conn.mk 1 ReadyState.Open true) (by decide) (by decide) (by decide)
      (by decide)).2.2.2 [7]).1⟩
